import Mathlib

/-!
Shallow embedding of `src/tg_bot.py` (fish_store Telegram shop bot).

The bot is a per-user finite state machine (ConversationHandler states
`START, HANDLE_MENU, HANDLE_CART, WAITING_EMAIL = range(4)`) backed by a
remote Strapi service.  We embed:

* the remote service state (`Remote`): products, carts, cart-product rows
  and client records, each carrying the opaque `documentId` strings the
  code uses for cross references;
* the client-boundary functions (`get_or_create_cart`, `get_cart_items`,
  `add_to_cart`, `remove_from_cart`, `fetch_products`,
  `get_product_details`, `save_client_to_cms`) as explicit state
  transformers.  Each takes a `Bool` flag saying whether its network
  interaction raises `requests.exceptions.RequestException`; on failure the
  function returns its sentinel (`None` / `[]` / `False`) and leaves the
  remote state unchanged, exactly as the `try/except` blocks do;
* the handlers (`start`, `handle_menu`, `handle_cart`, `handle_email`) and
  `show_cart`/`build_main_menu`, returning the next conversation state (a
  `Nat`, as in the source), the list of messages sent (`Out`), and a trace
  of the remote calls issued (`RCall`).

Messaging-transport plumbing (message ids, photo download, HTML parse
mode) is out of scope of the spec and elided: an edit-with-fallback and a
plain send are distinct `Out` constructors, and the numeric `:.2f`
rendering of totals is kept as exact rationals inside a structured
`CartView` rather than re-implementing Python float formatting.
-/

namespace FishStore

/-- Python: `START, HANDLE_MENU, HANDLE_CART, WAITING_EMAIL = range(4)`. -/
def START : Nat := 0

def HANDLE_MENU : Nat := 1

def HANDLE_CART : Nat := 2

def WAITING_EMAIL : Nat := 3

/-- A product entity of the remote catalog (`/api/products`). -/
structure Product where
  documentId : String
  name : String
  price : Rat
  description : String
deriving DecidableEq, Repr

/-- A cart document (`/api/carts`), linked to a user by `telegram_id`. -/
structure Cart where
  documentId : String
  telegram_id : String
deriving DecidableEq, Repr

/-- A cart line row (`/api/cart-products`): references a cart and a
product and carries a quantity. -/
structure CartRow where
  documentId : String
  cartId : String
  productId : String
  quantity : Rat
deriving DecidableEq, Repr

/-- A client record (`/api/clients`), keyed by `telegram_id`; the numeric
`id` is what `save_client_to_cms` uses in the `PUT` URL. -/
structure ClientRecord where
  id : Nat
  telegram_id : String
  email : String
  name : String
deriving DecidableEq, Repr

/-- A cart line as returned by `get_cart_items` with `populate=product`:
the raw row's `documentId` and `quantity` plus the populated product
(`none` when the relation is dangling, mirroring `item.get('product')`
being absent). -/
structure Item where
  documentId : String
  product : Option Product
  quantity : Rat
deriving DecidableEq, Repr

/-- The state of the remote Strapi service.  `nextId` feeds the fresh
opaque identifiers the service assigns to newly created entities. -/
structure Remote where
  products : List Product
  carts : List Cart
  cartRows : List CartRow
  clients : List ClientRecord
  nextId : Nat
deriving DecidableEq, Repr

/-- Network reliability for the remote calls an event's handling may make:
`true` means that operation's HTTP interaction fails
(`requests.exceptions.RequestException`) during this event. -/
structure Net where
  cartFail : Bool
  itemsFail : Bool
  addFail : Bool
  removeFail : Bool
  productsFail : Bool
  productFail : Bool
  clientFail : Bool
deriving DecidableEq, Repr

/-- `get_or_create_cart` (src lines 33-53): filter carts by
`telegram_id`; return the first hit, else `POST` a new cart.  On a request
exception the function logs and returns `None`. -/
def get_or_create_cart (fail : Bool) (r : Remote) (tid : String) :
    Option Cart × Remote :=
  if fail then (none, r)
  else
    match r.carts.find? (fun c => decide (c.telegram_id = tid)) with
    | some c => (some c, r)
    | none =>
      let c : Cart := ⟨"cart" ++ toString r.nextId, tid⟩
      (some c, { r with carts := r.carts ++ [c], nextId := r.nextId + 1 })

/-- Populate one cart row with its product, as `populate=product` does. -/
def populate (r : Remote) (row : CartRow) : Item :=
  ⟨row.documentId,
   r.products.find? (fun p => decide (p.documentId = row.productId)),
   row.quantity⟩

/-- `get_cart_items` (src lines 56-68): rows filtered by the cart's
`documentId`, products populated; `[]` on request exception. -/
def get_cart_items (fail : Bool) (r : Remote) (cartId : String) :
    List Item :=
  if fail then []
  else (r.cartRows.filter (fun row => decide (row.cartId = cartId))).map
    (populate r)

/-- `add_to_cart` (src lines 71-86): `POST` a new cart-product row;
`None` on request exception. -/
def add_to_cart (fail : Bool) (r : Remote) (cartId productId : String)
    (quantity : Rat) : Option CartRow × Remote :=
  if fail then (none, r)
  else
    let row : CartRow := ⟨"row" ++ toString r.nextId, cartId, productId, quantity⟩
    (some row, { r with cartRows := r.cartRows ++ [row], nextId := r.nextId + 1 })

/-- `remove_from_cart` (src lines 89-97): `DELETE
/api/cart-products/<document_id>`.  Deleting a missing document is an HTTP
error (`raise_for_status`), hence `False` with no change; otherwise the
row with that id is removed and the call returns `True`. -/
def remove_from_cart (fail : Bool) (r : Remote) (docId : String) :
    Bool × Remote :=
  if fail then (false, r)
  else if r.cartRows.any (fun row => decide (row.documentId = docId)) then
    (true, { r with
      cartRows := r.cartRows.eraseP (fun row => decide (row.documentId = docId)) })
  else (false, r)

/-- `fetch_products` (src lines 107-115): all products, `[]` on request
exception. -/
def fetch_products (fail : Bool) (r : Remote) : List Product :=
  if fail then [] else r.products

/-- `get_product_details` (src lines 134-144): first product whose
`documentId` matches; `None` on miss or request exception. -/
def get_product_details (fail : Bool) (r : Remote) (docId : String) :
    Option Product :=
  if fail then none
  else r.products.find? (fun p => decide (p.documentId = docId))

/-- `save_client_to_cms` (src lines 414-445): look up the client by
`telegram_id`; `PUT` onto the existing record's numeric `id` if found,
else `POST` a new record.  `None` on request exception. -/
def save_client_to_cms (fail : Bool) (r : Remote)
    (email tid name : String) : Option ClientRecord × Remote :=
  if fail then (none, r)
  else
    match r.clients.find? (fun c => decide (c.telegram_id = tid)) with
    | some c =>
      let c' : ClientRecord := ⟨c.id, tid, email, name⟩
      (some c',
       { r with clients := r.clients.map (fun d => if d.id = c.id then c' else d) })
    | none =>
      let c : ClientRecord := ⟨r.nextId, tid, email, name⟩
      (some c, { r with clients := r.clients ++ [c], nextId := r.nextId + 1 })

/-! ### String helpers

`strStarts`/`strDrop` embed Python's `str.startswith` and
`callback_data.split("_", 1)[1]` (splitting right after the `<tag>_`
payload tag), and `strip` embeds `str.strip()`, over the character list of
the string. -/

/-- `listStarts pat l` : `l` begins with `pat`. -/
def listStarts : List Char → List Char → Bool
  | [], _ => true
  | _ :: _, [] => false
  | c :: cs, d :: ds => decide (c = d) && listStarts cs ds

/-- Python `s.startswith(t)`. -/
def strStarts (s t : String) : Bool := listStarts t.data s.data

/-- Drop the first `n` characters of `s`; with `n` the length of the
`<tag>_` payload tag this is `s.split("_", 1)[1]`. -/
def strDrop (s : String) (n : Nat) : String := ⟨s.data.drop n⟩

/-- The whitespace characters Python `str.strip()` removes (ASCII part). -/
def isSpaceChar (c : Char) : Bool :=
  decide (c = ' ') || decide (c = '\t') || decide (c = '\n') || decide (c = '\r')

/-- Python `s.strip()`. -/
def strip (s : String) : String :=
  ⟨((s.data.dropWhile isSpaceChar).reverse.dropWhile isSpaceChar).reverse⟩

/-! ### Email validation

`handle_email` checks `re.match(r'[\w\.-]+@[\w\.-]+\.\w+', email)`
(src line 454): anchored at the start only, trailing characters
unconstrained.  Since `@` is not in `[\w.-]`, the local part is exactly a
maximal nonempty run of `[\w.-]` characters followed by a literal `@`.
After the `@`, a match exists iff some nonempty prefix of `[\w.-]`
characters is followed by a literal `.` and then one `\w` character (the
rest of `\w+` and the tail of the string are unconstrained); `domAux`
scans for exactly that decomposition.  `\w` is modelled by its ASCII
fragment (alphanumeric or underscore). -/

/-- Regex `\w` (ASCII fragment). -/
def isWordChar (c : Char) : Bool := c.isAlphanum || decide (c = '_')

/-- Regex character class `[\w\.-]`. -/
def isLocalChar (c : Char) : Bool :=
  isWordChar c || decide (c = '.') || decide (c = '-')

/-- Scan for `[\w\.-]+\.\w` from the current position; `seen` records
whether at least one `[\w.-]` character has been consumed. -/
def domAux : Bool → List Char → Bool
  | _, [] => false
  | seen, c :: rest =>
    if seen && decide (c = '.') && (match rest with
        | d :: _ => isWordChar d
        | [] => false) then true
    else if isLocalChar c then domAux true rest
    else false

/-- Scan `[\w\.-]+@` then hand over to `domAux`. -/
def emailAux : Bool → List Char → Bool
  | _, [] => false
  | seen, c :: rest =>
    if c = '@' then seen && domAux false rest
    else if isLocalChar c then emailAux true rest
    else false

/-- `re.match(r'[\w\.-]+@[\w\.-]+\.\w+', s)` succeeds. -/
def emailMatch (s : String) : Bool := emailAux false s.data

/-! ### Presentation: cart grouping and views (`show_cart`, src 165-226) -/

/-- One entry of `grouped_items` in `show_cart` (src 181-196). -/
structure Group where
  pid : String
  name : String
  price : Rat
  total_quantity : Rat
  total_price : Rat
deriving DecidableEq, Repr

/-- `str(product.get('documentId', ''))` — empty when the product relation
is dangling. -/
def itemPid (it : Item) : String :=
  match it.product with
  | some p => p.documentId
  | none => ""

/-- `product.get('name', 'Без названия')`. -/
def itemName (it : Item) : String :=
  match it.product with
  | some p => p.name
  | none => "Без названия"

/-- `product.get('price', 0)`. -/
def itemPrice (it : Item) : Rat :=
  match it.product with
  | some p => p.price
  | none => 0

/-- The `+=` updates of src 194-196 applied to the first group with the
given product id: `total_quantity += quantity` and
`total_price += quantity * grouped_items[pid]['price']` (note: the
group's stored price, set at the group's creation). -/
def bump (pid : String) (q : Rat) : List Group → List Group
  | [] => []
  | g :: gs =>
    if g.pid = pid then
      { g with total_quantity := g.total_quantity + q,
               total_price := g.total_price + q * g.price } :: gs
    else g :: bump pid q gs

/-- One iteration of the grouping loop (src 182-196): ensure a group for
this item's product id exists (created with the item's name/price and zero
totals, preserving dict insertion order), then apply the `+=` updates. -/
def addItem (acc : List Group) (it : Item) : List Group :=
  let pid := itemPid it
  let acc' :=
    if acc.any (fun g => decide (g.pid = pid)) then acc
    else acc ++ [⟨pid, itemName it, itemPrice it, 0, 0⟩]
  bump pid it.quantity acc'

/-- The `grouped_items` dict of `show_cart` as an insertion-ordered list. -/
def groupItems (items : List Item) : List Group := items.foldl addItem []

/-- The structured content of the cart message: either the
"🛒 Ваша корзина пуста" text or the per-group lines plus the
"💵 Итого" grand total (numeric rendering of the totals elided). -/
inductive CartView where
  | empty
  | filled (groups : List Group) (total : Rat)
deriving DecidableEq, Repr

/-- An inline keyboard button: label and `callback_data` payload. -/
structure Button where
  label : String
  callback_data : String
deriving DecidableEq, Repr

/-- An inline keyboard: rows of buttons. -/
abbrev Keyboard := List (List Button)

/-- The view-building portion of `show_cart` (src 177-211): the message
content and the keyboard.  In the non-empty branch the remove buttons all
carry `remove_` followed by `item['documentId']` where `item` is the loop
variable left over from the grouping loop of src line 182 — i.e. the LAST
element of `items` — for every group row. -/
def buildCartView (items : List Item) : CartView × Keyboard :=
  if items.isEmpty then
    (CartView.empty, [[⟨"🔙 Назад к товарам", "back_to_menu"⟩]])
  else
    let groups := groupItems items
    let lastId :=
      match items.getLast? with
      | some it => it.documentId
      | none => ""
    let total := (groups.map (fun g => g.total_price)).sum
    (CartView.filled groups total,
     (groups.map (fun g => [⟨"❌ Удалить " ++ g.name, "remove_" ++ lastId⟩]))
       ++ [[⟨"💳 Оплатить", "checkout"⟩], [⟨"🔙 В меню", "back_to_menu"⟩]])

/-- `build_main_menu` (src 118-131): `None` when the catalog comes back
empty, else one button per product (title truncated to 30 characters,
payload `product_<documentId>`) plus the cart button. -/
def build_main_menu (fail : Bool) (r : Remote) : Option Keyboard :=
  let products := fetch_products fail r
  if products.isEmpty then none
  else some
    ((products.map fun p =>
        [⟨⟨p.name.data.take 30⟩, "product_" ++ p.documentId⟩])
      ++ [[⟨"🛒 Корзина", "cart"⟩]])

/-! ### Handler step results -/

/-- A user-visible emission of one event's handling.  `send` is
`bot.send_message`/`reply_text`; `edit` is an edit with send fallback
(`safe_edit_message` / the `edit_message_text` with `except` fallback);
`answer` is `query.answer(text)`; `cartSend`/`cartEdit` carry the cart
view of `show_cart`; `productCard` is the product detail message (photo
or text fallback — same caption and keyboard either way); `deleteMsg` is
the best-effort `delete_message`. -/
inductive Out where
  | send (text : String) (kb : Keyboard)
  | edit (text : String) (kb : Keyboard)
  | answer (text : String)
  | cartSend (v : CartView) (kb : Keyboard)
  | cartEdit (v : CartView) (kb : Keyboard)
  | productCard (name : String) (price : Rat) (description : String) (kb : Keyboard)
  | deleteMsg
deriving DecidableEq, Repr

/-- Trace entry: one remote-service call issued while handling an event
(recorded whether or not the call succeeds). -/
inductive RCall where
  | getOrCreateCart (tid : String)
  | getCartItems (cartId : String)
  | addToCart (cartId productId : String)
  | removeFromCart (docId : String)
  | fetchProducts
  | getProduct (docId : String)
  | saveClient (tid email : String)
deriving DecidableEq, Repr

/-- The result of handling one event: the conversation state the handler
returns (the `range(4)` integer), the messages emitted, the remote calls
issued, and the remote state afterwards. -/
structure StepResult where
  state : Nat
  outs : List Out
  calls : List RCall
  remote : Remote
deriving DecidableEq, Repr

/-- `show_cart` (src 165-226): load-or-create the cart (error message on
failure), fetch its items, render the view — edited in place when a
`message_id` was passed (`asEdit`), else sent as a new message. -/
def show_cart (net : Net) (r : Remote) (chatId : String) (asEdit : Bool) :
    List Out × List RCall × Remote :=
  match get_or_create_cart net.cartFail r chatId with
  | (none, r1) =>
    ([Out.send "Ошибка загрузки корзины" []], [RCall.getOrCreateCart chatId], r1)
  | (some cart, r1) =>
    let items := get_cart_items net.itemsFail r1 cart.documentId
    let vk := buildCartView items
    ([if asEdit then Out.cartEdit vk.1 vk.2 else Out.cartSend vk.1 vk.2],
     [RCall.getOrCreateCart chatId, RCall.getCartItems cart.documentId], r1)

/-- `start` (src 229-244): build the main menu; on `None` tell the user
the catalog is unavailable; either way the next state is `HANDLE_MENU`. -/
def start (net : Net) (r : Remote) : StepResult :=
  match build_main_menu net.productsFail r with
  | none =>
    ⟨HANDLE_MENU, [Out.send "Товары временно недоступны" []],
     [RCall.fetchProducts], r⟩
  | some kb =>
    ⟨HANDLE_MENU, [Out.send "Выберите товар:" kb], [RCall.fetchProducts], r⟩

/-- `handle_menu` (src 247-361): dispatch on the callback payload, in the
source's branch order; every branch ends in `HANDLE_MENU` except opening
the cart (`HANDLE_CART`). -/
def handle_menu (cb : String) (net : Net) (r : Remote) (chatId : String) :
    StepResult :=
  if strStarts cb "product_" then
    let docId := strDrop cb 8
    match get_product_details net.productFail r docId with
    | none =>
      ⟨HANDLE_MENU, [Out.send "Товар не найден" []], [RCall.getProduct docId], r⟩
    | some p =>
      let kb : Keyboard :=
        [[⟨"➕ Добавить в корзину", "add_" ++ docId⟩],
         [⟨"🔙 Назад к товарам", "back_to_menu"⟩]]
      ⟨HANDLE_MENU, [Out.deleteMsg, Out.productCard p.name p.price p.description kb],
       [RCall.getProduct docId], r⟩
  else if strStarts cb "add_" then
    let productId := strDrop cb 4
    match get_or_create_cart net.cartFail r chatId with
    | (some cart, r1) =>
      let ar := add_to_cart net.addFail r1 cart.documentId productId 1
      ⟨HANDLE_MENU, [Out.answer "✅ Товар добавлен в корзину!"],
       [RCall.getOrCreateCart chatId, RCall.addToCart cart.documentId productId],
       ar.2⟩
    | (none, r1) =>
      ⟨HANDLE_MENU, [Out.answer "❌ Ошибка добавления"],
       [RCall.getOrCreateCart chatId], r1⟩
  else if cb = "cart" then
    let ocr := show_cart net r chatId false
    ⟨HANDLE_CART, ocr.1, ocr.2.1, ocr.2.2⟩
  else if strStarts cb "remove_" then
    let itemId := strDrop cb 7
    let rr := remove_from_cart net.removeFail r itemId
    let ans := if rr.1 then Out.answer "✅ Товар удален из корзины"
               else Out.answer "❌ Ошибка удаления"
    let ocr := show_cart net rr.2 chatId true
    ⟨HANDLE_MENU, ans :: ocr.1, RCall.removeFromCart itemId :: ocr.2.1, ocr.2.2⟩
  else if cb = "checkout" then
    match get_or_create_cart net.cartFail r chatId with
    | (some cart, r1) =>
      let rr := remove_from_cart net.removeFail r1 cart.documentId
      let res := start net rr.2
      ⟨res.state,
       Out.send "✅ Заказ оформлен! Спасибо за покупку!\nСкоро с вами свяжется менеджер." []
         :: res.outs,
       RCall.getOrCreateCart chatId :: RCall.removeFromCart cart.documentId
         :: res.calls,
       res.remote⟩
    | (none, r1) => ⟨HANDLE_MENU, [], [RCall.getOrCreateCart chatId], r1⟩
  else if cb = "back_to_menu" then
    match build_main_menu net.productsFail r with
    | none =>
      ⟨HANDLE_MENU, [Out.send "Товары временно недоступны" []],
       [RCall.fetchProducts], r⟩
    | some kb =>
      ⟨HANDLE_MENU, [Out.deleteMsg, Out.send "Выберите товар:" kb],
       [RCall.fetchProducts], r⟩
  else ⟨HANDLE_MENU, [], [], r⟩

/-- `handle_cart` (src 364-411): remove a line and re-render, go to the
email prompt on checkout, or rebuild the main menu; unmatched payloads
fall through to `HANDLE_CART`. -/
def handle_cart (cb : String) (net : Net) (r : Remote) (chatId : String) :
    StepResult :=
  if strStarts cb "remove_" then
    let itemId := strDrop cb 7
    let rr := remove_from_cart net.removeFail r itemId
    let ans := if rr.1 then Out.answer "✅ Товар удален из корзины"
               else Out.answer "❌ Ошибка удаления"
    let ocr := show_cart net rr.2 chatId true
    ⟨HANDLE_CART, ans :: ocr.1, RCall.removeFromCart itemId :: ocr.2.1, ocr.2.2⟩
  else if cb = "checkout" then
    ⟨WAITING_EMAIL,
     [Out.edit "📧 Введите ваш email для оформления заказа:"
        [[⟨"❌ Отмена", "cancel_email"⟩]]],
     [], r⟩
  else if cb = "back_to_menu" then
    match build_main_menu net.productsFail r with
    | none =>
      ⟨HANDLE_MENU, [Out.send "Товары временно недоступны" []],
       [RCall.fetchProducts], r⟩
    | some kb =>
      ⟨HANDLE_MENU, [Out.deleteMsg, Out.send "Выберите товар:" kb],
       [RCall.fetchProducts], r⟩
  else ⟨HANDLE_CART, [], [], r⟩

/-- An inbound event in the `WAITING_EMAIL` state: a free-text message or
a button press. -/
inductive Ev where
  | text (s : String)
  | button (payload : String)
deriving DecidableEq, Repr

/-- The confirmation text of src 468-472 (the email is interpolated). -/
def thanksText (email : String) : String :=
  "✅ Спасибо за заказ!\nВаш email (" ++ email ++ ") сохранен.\nМенеджер свяжется с вами для оформления оплаты."

/-- `handle_email` (src 448-488): on text, strip and validate the email;
re-prompt and stay on failure; on success upsert the client, make the
(single) cart-clearing delete with the CART's `documentId` when the cart
loads, confirm, and re-enter via `start`.  On the `cancel_email` button,
acknowledge and re-enter via `start`; any other button falls through to
`WAITING_EMAIL`. -/
def handle_email (ev : Ev) (net : Net) (r : Remote)
    (chatId userName : String) : StepResult :=
  match ev with
  | Ev.text s =>
    let email := strip s
    if !emailMatch email then
      ⟨WAITING_EMAIL, [Out.send "⚠️ Введите корректный email" []], [], r⟩
    else
      match save_client_to_cms net.clientFail r email chatId userName with
      | (some _, r1) =>
        let ocr := get_or_create_cart net.cartFail r1 chatId
        let cartPart :=
          match ocr.1 with
          | some cart =>
            ([RCall.removeFromCart cart.documentId],
             (remove_from_cart net.removeFail ocr.2 cart.documentId).2)
          | none => ([], ocr.2)
        let res := start net cartPart.2
        ⟨res.state,
         Out.send (thanksText email) [] :: res.outs,
         RCall.saveClient chatId email :: RCall.getOrCreateCart chatId
           :: cartPart.1 ++ res.calls,
         res.remote⟩
      | (none, r1) =>
        let res := start net r1
        ⟨res.state,
         Out.send "⚠️ Не удалось сохранить ваши данные.\nПопробуйте позже или свяжитесь с нами." []
           :: res.outs,
         RCall.saveClient chatId email :: res.calls,
         res.remote⟩
  | Ev.button p =>
    if p = "cancel_email" then
      let res := start net r
      ⟨res.state, Out.send "❌ Ввод email отменен." [] :: res.outs, res.calls,
       res.remote⟩
    else ⟨WAITING_EMAIL, [], [], r⟩

/-! ### Spec-side grouping totals (for the refinement comparison of C2)

These two definitions follow the SPEC's words, not the source: per product
group, `total_quantity` is the sum of the group's line quantities and
`total_price = Σ quantity × unit_price` with each line's OWN unit price. -/

/-- Spec: the sum of the quantities of the lines whose product id is
`pid`. -/
def specQtyTotal (items : List Item) (pid : String) : Rat :=
  ((items.filter (fun it => decide (itemPid it = pid))).map
    (fun it => it.quantity)).sum

/-- Spec: `Σ quantity × unit_price` over the lines whose product id is
`pid`, each with its own unit price. -/
def specLineTotal (items : List Item) (pid : String) : Rat :=
  ((items.filter (fun it => decide (itemPid it = pid))).map
    (fun it => it.quantity * itemPrice it)).sum

/-! ### Grouping lemmas -/

/-- Look up the group for a product id (dict access on `grouped_items`). -/
def findG (p : String) (l : List Group) : Option Group :=
  l.find? (fun g => decide (g.pid = p))

/-- The record update `bump` applies to the matched group. -/
def bumpG (q : Rat) (g : Group) : Group :=
  { g with total_quantity := g.total_quantity + q,
           total_price := g.total_price + q * g.price }

/-! ### Concrete fixtures (used by witnesses and counterexamples) -/

/-- A catalog product, unit price 10. -/
def pA : Product := ⟨"A", "FishA", 10, "descA"⟩

/-- A second catalog product, unit price 7. -/
def pB : Product := ⟨"B", "FishB", 7, "descB"⟩

/-- The same product id as `pA` but with unit price 20 (two rows of one
product whose populated price snapshots differ). -/
def pA20 : Product := ⟨"A", "FishA", 20, "descA"⟩

/-- A healthy network: every remote call succeeds. -/
def netOK : Net := ⟨false, false, false, false, false, false, false⟩

/-- The catalog listing fails (or comes back empty). -/
def netNoCatalog : Net := ⟨false, false, false, false, true, false, false⟩

/-- The client-record upsert fails. -/
def netNoClient : Net := ⟨false, false, false, false, false, false, true⟩

/-- The cart document of user `"42"`. -/
def cart1 : Cart := ⟨"c1", "42"⟩

/-- A remote state: two products, user 42's cart holding one line of
product A. -/
def r0 : Remote := ⟨[pA, pB], [cart1], [⟨"r1", "c1", "A", 1⟩], [], 5⟩

/-- The spec's grouping example: two lines of product A, qty 2 and 3,
unit price 10 each. -/
def exSpecItems : List Item := [⟨"l1", some pA, 2⟩, ⟨"l2", some pA, 3⟩]

/-- Two lines of product A whose populated prices differ (10 and 20). -/
def exMixedPrice : List Item := [⟨"l1", some pA, 1⟩, ⟨"l2", some pA20, 1⟩]

/-- One line of product A followed by one line of product B. -/
def exTwoProducts : List Item := [⟨"l1", some pA, 1⟩, ⟨"l2", some pB, 1⟩]

/-! ### Grouping fold lemmas -/

theorem bump_map_pid (p : String) (q : Rat) (l : List Group) :
    (bump p q l).map Group.pid = l.map Group.pid := by
  induction l with
  | nil => rfl
  | cons g gs ih =>
    by_cases h : g.pid = p <;> simp [bump, h, bumpG, ih]

theorem bump_length (p : String) (q : Rat) (l : List Group) :
    (bump p q l).length = l.length := by
  have h := congrArg List.length (bump_map_pid p q l)
  simpa using h

theorem findG_bump_self (p : String) (q : Rat) (l : List Group) :
    findG p (bump p q l) = (findG p l).map (bumpG q) := by
  induction l with
  | nil => rfl
  | cons g gs ih =>
    by_cases h : g.pid = p
    · simp [bump, findG, h, bumpG]
    · simp only [bump, if_neg h]
      simp [findG, h] at ih ⊢
      exact ih

theorem findG_bump_ne (p p' : String) (q : Rat) (l : List Group)
    (h : p ≠ p') :
    findG p (bump p' q l) = findG p l := by
  induction l with
  | nil => rfl
  | cons g gs ih =>
    by_cases hg : g.pid = p'
    · have hgp : ¬ g.pid = p := by
        intro hc
        exact h (hc ▸ hg)
      simp [bump, findG, hg, hgp, Ne.symm h]
    · simp only [bump, if_neg hg]
      by_cases hgp : g.pid = p
      · simp [findG, hgp]
      · simp [findG, hgp] at ih ⊢
        exact ih

theorem findG_of_mem_nodup (l : List Group) (g : Group)
    (hnd : (l.map Group.pid).Nodup) (hg : g ∈ l) :
    findG g.pid l = some g := by
  induction l with
  | nil => simp at hg
  | cons g' gs ih =>
    rcases List.mem_cons.mp hg with h | h
    · subst h
      simp [findG]
    · have hne : g'.pid ≠ g.pid := by
        intro hc
        have : g.pid ∈ gs.map Group.pid := List.mem_map_of_mem Group.pid h
        simp only [List.map_cons, List.nodup_cons] at hnd
        exact hnd.1 (hc ▸ this)
      have hnd' : (gs.map Group.pid).Nodup := by
        simp only [List.map_cons, List.nodup_cons] at hnd
        exact hnd.2
      simp [findG, hne]
      simpa [findG] using ih hnd' h

theorem findG_addItem_self (l : List Group) (it : Item) :
    findG (itemPid it) (addItem l it) =
      some (match findG (itemPid it) l with
            | some g0 => bumpG it.quantity g0
            | none => bumpG it.quantity ⟨itemPid it, itemName it, itemPrice it, 0, 0⟩) := by
  by_cases h : l.any (fun g => decide (g.pid = itemPid it))
  · have hs : ∃ g, g ∈ l ∧ g.pid = itemPid it := by
      simpa using h
    have hsome : (findG (itemPid it) l).isSome := by
      simp only [findG, List.find?_isSome]
      obtain ⟨g, hgl, hgp⟩ := hs
      exact ⟨g, hgl, by simp [hgp]⟩
    obtain ⟨g0, hg0⟩ := Option.isSome_iff_exists.mp hsome
    simp only [addItem, if_pos h]
    rw [findG_bump_self, hg0]
    rfl
  · have hnone : findG (itemPid it) l = none := by
      simp only [findG, List.find?_eq_none]
      intro x hx
      simp only [List.any_eq_true, not_exists, not_and] at h
      simpa using h x hx
    have happ : findG (itemPid it)
        (l ++ [⟨itemPid it, itemName it, itemPrice it, 0, 0⟩]) =
        some ⟨itemPid it, itemName it, itemPrice it, 0, 0⟩ := by
      simp only [findG, List.find?_append]
      rw [show List.find? (fun g => decide (g.pid = itemPid it)) l = none from hnone]
      simp [List.find?]
    simp only [addItem, if_neg h]
    rw [findG_bump_self, happ, hnone]
    rfl

theorem findG_addItem_ne (p : String) (l : List Group) (it : Item)
    (h : p ≠ itemPid it) :
    findG p (addItem l it) = findG p l := by
  simp only [addItem]
  by_cases ha : l.any (fun g => decide (g.pid = itemPid it))
  · rw [if_pos ha, findG_bump_ne _ _ _ _ h]
  · rw [if_neg ha, findG_bump_ne _ _ _ _ h]
    simp only [findG, List.find?_append]
    have : List.find? (fun g => decide (g.pid = p))
        [(⟨itemPid it, itemName it, itemPrice it, 0, 0⟩ : Group)] = none := by
      simp [List.find?, Ne.symm h]
    rw [this]
    simp

theorem addItem_map_pid_nodup (l : List Group) (it : Item)
    (hnd : (l.map Group.pid).Nodup) :
    ((addItem l it).map Group.pid).Nodup := by
  simp only [addItem]
  by_cases ha : l.any (fun g => decide (g.pid = itemPid it))
  · rw [if_pos ha, bump_map_pid]
    exact hnd
  · rw [if_neg ha, bump_map_pid]
    have hnotin : itemPid it ∉ l.map Group.pid := by
      intro hc
      obtain ⟨g, hgl, hgp⟩ := List.mem_map.mp hc
      simp only [List.any_eq_true, not_exists, not_and] at ha
      exact absurd (by simp [hgp]) (ha g hgl)
    simp [List.Nodup, List.pairwise_append, hnd]
    refine ⟨hnd, fun a ha' hc => hnotin (hc ▸ List.mem_map_of_mem Group.pid ha')⟩

theorem specQtyTotal_cons (it : Item) (rest : List Item) (p : String) :
    specQtyTotal (it :: rest) p =
      (if itemPid it = p then it.quantity else 0) + specQtyTotal rest p := by
  by_cases h : itemPid it = p <;>
    simp [specQtyTotal, List.filter_cons, h]

/-- Invariant of the grouping fold: a group in the result either extends a
group of the accumulator (same price, totals incremented by this batch's
quantities times the GROUP's price) or was created from the first item of
its product id (price taken from that first item). -/
theorem foldl_addItem_spec (items : List Item) :
    ∀ (acc : List Group), (acc.map Group.pid).Nodup →
    ∀ g ∈ items.foldl addItem acc,
      match findG g.pid acc with
      | some g0 =>
          g.price = g0.price ∧
          g.total_quantity = g0.total_quantity + specQtyTotal items g.pid ∧
          g.total_price = g0.total_price + g.price * specQtyTotal items g.pid
      | none =>
          (items.find? (fun it => decide (itemPid it = g.pid))).map itemPrice
            = some g.price ∧
          g.total_quantity = specQtyTotal items g.pid ∧
          g.total_price = g.price * specQtyTotal items g.pid := by
  induction items with
  | nil =>
    intro acc hnd g hg
    simp only [List.foldl_nil] at hg
    rw [findG_of_mem_nodup acc g hnd hg]
    simp [specQtyTotal]
  | cons it rest ih =>
    intro acc hnd g hg
    simp only [List.foldl_cons] at hg
    have hnd' := addItem_map_pid_nodup acc it hnd
    have IH := ih (addItem acc it) hnd' g hg
    by_cases hp : g.pid = itemPid it
    · rw [hp] at IH ⊢
      rw [findG_addItem_self] at IH
      cases hacc : findG (itemPid it) acc with
      | some g0 =>
        rw [hacc] at IH
        simp only [bumpG] at IH
        refine ⟨IH.1, ?_, ?_⟩
        · rw [IH.2.1, specQtyTotal_cons, if_pos rfl]
          ring
        · rw [IH.2.2, specQtyTotal_cons, if_pos rfl, IH.1]
          ring
      | none =>
        rw [hacc] at IH
        simp only [bumpG] at IH
        refine ⟨?_, ?_, ?_⟩
        · rw [List.find?_cons_of_pos _ (by simp)]
          exact congrArg some IH.1.symm
        · rw [IH.2.1, specQtyTotal_cons, if_pos rfl]
          ring
        · rw [IH.2.2, specQtyTotal_cons, if_pos rfl, IH.1]
          ring
    · rw [findG_addItem_ne g.pid acc it hp] at IH
      have hps : itemPid it ≠ g.pid := fun hc => hp hc.symm
      cases hacc : findG g.pid acc with
      | some g0 =>
        rw [hacc] at IH
        refine ⟨IH.1, ?_, ?_⟩
        · rw [IH.2.1, specQtyTotal_cons, if_neg hps]
          ring
        · rw [IH.2.2, specQtyTotal_cons, if_neg hps]
          ring
      | none =>
        rw [hacc] at IH
        refine ⟨?_, ?_, ?_⟩
        · rw [List.find?_cons_of_neg _ (by simp [hps])]
          exact IH.1
        · rw [IH.2.1, specQtyTotal_cons, if_neg hps]
          ring
        · rw [IH.2.2, specQtyTotal_cons, if_neg hps]
          ring

/-- Every group the cart view displays: its price is the price of the
FIRST cart line of its product id, its total quantity is the sum of the
group's line quantities, and its total price is the group price times
that sum. -/
theorem groupItems_spec (items : List Item) (g : Group)
    (hg : g ∈ groupItems items) :
    (items.find? (fun it => decide (itemPid it = g.pid))).map itemPrice
      = some g.price ∧
    g.total_quantity = specQtyTotal items g.pid ∧
    g.total_price = g.price * specQtyTotal items g.pid := by
  have h := foldl_addItem_spec items [] (by simp) g hg
  simpa [findG] using h

theorem addItem_ne_nil (l : List Group) (it : Item) : addItem l it ≠ [] := by
  intro hc
  have hlen := congrArg List.length hc
  simp only [addItem, bump_length, List.length_nil] at hlen
  by_cases h : l.any (fun g => decide (g.pid = itemPid it))
  · rw [if_pos h] at hlen
    have hl : l = [] := List.length_eq_zero.mp hlen
    subst hl
    simp at h
  · rw [if_neg h] at hlen
    simp at hlen

theorem foldl_addItem_ne_nil (items : List Item) :
    ∀ acc : List Group, acc ≠ [] → items.foldl addItem acc ≠ [] := by
  induction items with
  | nil =>
    intro acc h
    simpa using h
  | cons it rest ih =>
    intro acc h
    simp only [List.foldl_cons]
    exact ih (addItem acc it) (addItem_ne_nil acc it)

/-- A non-empty cart shows at least one product group. -/
theorem groupItems_ne_nil (items : List Item) (h : items ≠ []) :
    groupItems items ≠ [] := by
  cases items with
  | nil => exact absurd rfl h
  | cons it rest =>
    simp only [groupItems, List.foldl_cons]
    exact foldl_addItem_ne_nil rest (addItem [] it) (addItem_ne_nil [] it)

/-! ### Payload-string lemmas -/

theorem remove_data (itemId : String) :
    ("remove_" ++ itemId).data =
      'r' :: 'e' :: 'm' :: 'o' :: 'v' :: 'e' :: '_' :: itemId.data := by
  rw [String.data_append]
  rfl

theorem strStarts_remove (itemId : String) :
    strStarts ("remove_" ++ itemId) "remove_" = true := by
  simp [strStarts, remove_data, listStarts]

theorem strStarts_remove_product (itemId : String) :
    strStarts ("remove_" ++ itemId) "product_" = false := by
  simp [strStarts, remove_data, listStarts]

theorem strStarts_remove_add (itemId : String) :
    strStarts ("remove_" ++ itemId) "add_" = false := by
  simp [strStarts, remove_data, listStarts]

theorem remove_ne_cart (itemId : String) : ("remove_" ++ itemId) ≠ "cart" := by
  intro hc
  have := congrArg String.data hc
  rw [remove_data] at this
  simp at this

theorem strDrop_remove (itemId : String) :
    strDrop ("remove_" ++ itemId) 7 = itemId := by
  simp only [strDrop, remove_data]
  rfl

/-! ### Handler lemmas -/

theorem start_state (net : Net) (r : Remote) :
    (start net r).state = HANDLE_MENU := by
  unfold start
  split <;> rfl

theorem start_remote (net : Net) (r : Remote) :
    (start net r).remote = r := by
  unfold start
  split <;> rfl

theorem get_or_create_cart_found (r : Remote) (tid : String) (cart : Cart)
    (hfind : r.carts.find? (fun c => decide (c.telegram_id = tid)) = some cart) :
    get_or_create_cart false r tid = (some cart, r) := by
  simp [get_or_create_cart, hfind]

theorem remove_from_cart_carts (f : Bool) (r : Remote) (d : String) :
    ((remove_from_cart f r d).2).carts = r.carts := by
  unfold remove_from_cart
  repeat' split
  all_goals rfl

theorem remove_from_cart_products (f : Bool) (r : Remote) (d : String) :
    ((remove_from_cart f r d).2).products = r.products := by
  unfold remove_from_cart
  repeat' split
  all_goals rfl

theorem build_main_menu_some (r : Remote) (h : r.products ≠ []) :
    build_main_menu false r =
      some ((r.products.map fun p =>
          [⟨⟨p.name.data.take 30⟩, "product_" ++ p.documentId⟩])
        ++ [[⟨"🛒 Корзина", "cart"⟩]]) := by
  simp [build_main_menu, fetch_products, h]

/-! ## Claims -/

/-- C1: the claim says both successful-checkout paths remove all of the
cart's line items remotely while preserving the cart document.  Evaluating
the code on a cart `"c1"` of user `"42"` holding one line row `"r1"` with
a healthy network: the `CART`-path checkout (`handle_menu "checkout"`,
which issues `DELETE /api/cart-products/<cart documentId>`) and the
`AWAITING_EMAIL` success path (`handle_email` on a valid email, same
delete) both leave the line row in place — `get_cart_items` on the cart
still returns the row — although the cart document is indeed preserved.
The commented-out `clear_cart` (src 100-104) is the clearing the claim
describes; the shipped code passes the CART's `documentId` to the
cart-PRODUCTS delete endpoint instead, which cannot clear the lines. -/
theorem claim_C1_checkout_does_not_clear_lines :
    (get_cart_items false (handle_menu "checkout" netOK r0 "42").remote "c1"
        = [⟨"r1", some pA, 1⟩] ∧
      (handle_menu "checkout" netOK r0 "42").remote.carts = [cart1]) ∧
    (get_cart_items false
        (handle_email (Ev.text "user@example.com") netOK r0 "42" "Bob").remote "c1"
        = [⟨"r1", some pA, 1⟩] ∧
      (handle_email (Ev.text "user@example.com") netOK r0 "42" "Bob").remote.carts
        = [cart1]) := by
  decide

/-- C2 counterexample: the claim computes `total_price` as
`Σ quantity × unit_price` with each line's OWN unit price for every list
of cart lines.  On two lines of the same product id whose populated
prices differ (10 and 20), the code accumulates
`quantity * grouped_items[pid]['price']` — the price stored when the
group was created — giving 20 where the claim's formula gives 30. -/
theorem claim_C2_counterexample :
    ¬ (∀ (items : List Item), ∀ g ∈ groupItems items,
        g.total_quantity = specQtyTotal items g.pid ∧
        g.total_price = specLineTotal items g.pid) := by
  intro h
  have hval : groupItems exMixedPrice = [⟨"A", "FishA", 10, 2, 20⟩] := by
    simp [groupItems, addItem, bump, itemPid, itemName, itemPrice,
      exMixedPrice, pA, pA20]
    norm_num
  have hm : (⟨"A", "FishA", 10, 2, 20⟩ : Group) ∈ groupItems exMixedPrice := by
    rw [hval]
    simp
  have h2 := (h exMixedPrice _ hm).2
  have hspec : specLineTotal exMixedPrice "A" = 30 := by
    simp [specLineTotal, exMixedPrice, itemPid, itemPrice, pA, pA20]
    norm_num
  rw [hspec] at h2
  norm_num at h2

/-- C2 amended: the cart view groups lines by product id; per group,
`total_quantity` is the sum of the group's line quantities, and
`total_price` is that sum times the group's unit price, which is the
price of the FIRST line of the group (later lines' own prices are
ignored).  The spec's concrete example (two lines of product A, qty 2 and
3, price 10 each) yields one group with total_quantity 5 and total_price
50, as claimed. -/
theorem claim_C2_amended_grouping :
    (∀ (items : List Item), ∀ g ∈ groupItems items,
       g.total_quantity = specQtyTotal items g.pid ∧
       (items.find? (fun it => decide (itemPid it = g.pid))).map itemPrice
         = some g.price ∧
       g.total_price = g.price * specQtyTotal items g.pid) ∧
    groupItems exSpecItems = [⟨"A", "FishA", 10, 5, 50⟩] := by
  constructor
  · intro items g hg
    obtain ⟨h1, h2, h3⟩ := groupItems_spec items g hg
    exact ⟨h2, h1, h3⟩
  · simp [groupItems, addItem, bump, itemPid, itemName, itemPrice,
      exSpecItems, pA]
    norm_num

/-- Witness for C2: the amended theorem applied to the spec's concrete
example, membership discharged at the computed group. -/
theorem claim_C2_amended_grouping_witness :
    (⟨"A", "FishA", 10, 5, 50⟩ : Group).total_quantity
      = specQtyTotal exSpecItems "A" := by
  have hm : (⟨"A", "FishA", 10, 5, 50⟩ : Group) ∈ groupItems exSpecItems := by
    rw [claim_C2_amended_grouping.2]
    simp
  exact (claim_C2_amended_grouping.1 exSpecItems _ hm).1

/-- C3: the claim says each product group's remove action references the
id of the FIRST line item within that group.  In the code the f-string
`remove_{item['documentId']}` (src 206) reads the loop variable `item`
left over from the grouping loop (src 182), i.e. the LAST element of the
whole item list: on lines `l1` (product A) and `l2` (product B), BOTH
groups' remove buttons carry `remove_l2` — group A's button references a
row of product B, so pressing it does not delete a row of group A. -/
theorem claim_C3_remove_targets_last_row :
    (buildCartView exTwoProducts).2 =
      [[⟨"❌ Удалить FishA", "remove_l2"⟩],
       [⟨"❌ Удалить FishB", "remove_l2"⟩],
       [⟨"💳 Оплатить", "checkout"⟩],
       [⟨"🔙 В меню", "back_to_menu"⟩]] := by
  decide

/-- C4 counterexample: the claim says a remote-call failure leaves the
session state unchanged — in particular a failed client-record upsert in
`AWAITING_EMAIL` keeps the state `AWAITING_EMAIL`.  Evaluating the code:
with the upsert failing, `handle_email` on the valid address
`user@example.com` returns `start(...)`'s state, not `WAITING_EMAIL`. -/
theorem claim_C4_counterexample :
    (handle_email (Ev.text "user@example.com") netNoClient r0 "42" "Bob").state
      ≠ WAITING_EMAIL := by
  decide

/-- C4 amended: in `AWAITING_EMAIL`, a valid email whose client-record
upsert fails emits the user-visible error message and leaves the remote
state (hence the cart) unchanged, but the session transitions to `MENU`
(via `start`) rather than remaining in `AWAITING_EMAIL`. -/
theorem claim_C4_amended_fail_goes_to_menu (net : Net) (r : Remote)
    (chatId userName s : String)
    (hv : emailMatch (strip s) = true) (hf : net.clientFail = true) :
    (handle_email (Ev.text s) net r chatId userName).state = HANDLE_MENU ∧
    Out.send "⚠️ Не удалось сохранить ваши данные.\nПопробуйте позже или свяжитесь с нами." []
      ∈ (handle_email (Ev.text s) net r chatId userName).outs ∧
    (handle_email (Ev.text s) net r chatId userName).remote = r := by
  have he : handle_email (Ev.text s) net r chatId userName =
      ⟨(start net r).state,
       Out.send "⚠️ Не удалось сохранить ваши данные.\nПопробуйте позже или свяжитесь с нами." []
         :: (start net r).outs,
       RCall.saveClient chatId (strip s) :: (start net r).calls,
       (start net r).remote⟩ := by
    simp [handle_email, hv, hf, save_client_to_cms]
  rw [he]
  exact ⟨start_state net r, List.mem_cons_self _ _, start_remote net r⟩

/-- Witness for C4's amended theorem at a concrete valid email, failing
upsert, and remote state. -/
theorem claim_C4_amended_fail_goes_to_menu_witness :
    (handle_email (Ev.text "user@example.com") netNoClient r0 "42" "Bob").state
      = HANDLE_MENU := by
  exact (claim_C4_amended_fail_goes_to_menu netNoClient r0 "42" "Bob"
    "user@example.com" (by decide) (by decide)).1

/-- C5: for every event and any remote/network situation, each handler's
return value is one of the three live conversation states
`HANDLE_MENU`, `HANDLE_CART`, `WAITING_EMAIL` (the `range(4)` integers
1, 2, 3) — no handler ever returns any other state. -/
theorem claim_C5_states_closed (net : Net) (r : Remote)
    (cb chatId userName : String) (ev : Ev) :
    ((start net r).state = HANDLE_MENU ∨ (start net r).state = HANDLE_CART ∨
      (start net r).state = WAITING_EMAIL) ∧
    ((handle_menu cb net r chatId).state = HANDLE_MENU ∨
      (handle_menu cb net r chatId).state = HANDLE_CART ∨
      (handle_menu cb net r chatId).state = WAITING_EMAIL) ∧
    ((handle_cart cb net r chatId).state = HANDLE_MENU ∨
      (handle_cart cb net r chatId).state = HANDLE_CART ∨
      (handle_cart cb net r chatId).state = WAITING_EMAIL) ∧
    ((handle_email ev net r chatId userName).state = HANDLE_MENU ∨
      (handle_email ev net r chatId userName).state = HANDLE_CART ∨
      (handle_email ev net r chatId userName).state = WAITING_EMAIL) := by
  refine ⟨Or.inl (start_state net r), ?_, ?_, ?_⟩
  · unfold handle_menu
    repeat' split
    all_goals simp [start_state, show_cart]
    all_goals repeat' split
    all_goals simp [start_state]
  · unfold handle_cart
    repeat' split
    all_goals simp [start_state, show_cart]
  · unfold handle_email
    repeat' split
    all_goals simp [start_state]
    all_goals repeat' split
    all_goals simp [start_state]

/-- C6: in `AWAITING_EMAIL`, free text failing the syntactic check
`re.match(r'[\w\.-]+@[\w\.-]+\.\w+', ...)` (after `strip()`) produces the
re-prompt and leaves the state `WAITING_EMAIL` with no remote call and
the remote unchanged; text passing the check leads to a client-record
upsert attempt (a `saveClient` call is issued) and a return to
`HANDLE_MENU`; specifically `user@example.com` passes the check and
`not-an-email` fails it. -/
theorem claim_C6_email_validation :
    (∀ (s : String) (net : Net) (r : Remote) (chatId userName : String),
       emailMatch (strip s) = false →
       handle_email (Ev.text s) net r chatId userName =
         ⟨WAITING_EMAIL, [Out.send "⚠️ Введите корректный email" []], [], r⟩) ∧
    (∀ (s : String) (net : Net) (r : Remote) (chatId userName : String),
       emailMatch (strip s) = true →
       (handle_email (Ev.text s) net r chatId userName).state = HANDLE_MENU ∧
       RCall.saveClient chatId (strip s) ∈
         (handle_email (Ev.text s) net r chatId userName).calls) ∧
    emailMatch "user@example.com" = true ∧
    emailMatch "not-an-email" = false := by
  refine ⟨?_, ?_, by decide, by decide⟩
  · intro s net r chatId userName h
    simp [handle_email, h]
  · intro s net r chatId userName h
    unfold handle_email
    simp only [h, Bool.not_true, Bool.false_eq_true, if_false]
    constructor
    · repeat' split
      all_goals simp [start_state]
    · repeat' split
      all_goals simp

/-- Witness for C6 at the two concrete inputs of the claim. -/
theorem claim_C6_email_validation_witness :
    handle_email (Ev.text "not-an-email") netOK r0 "42" "Bob" =
      ⟨WAITING_EMAIL, [Out.send "⚠️ Введите корректный email" []], [], r0⟩ ∧
    (handle_email (Ev.text "user@example.com") netOK r0 "42" "Bob").state
      = HANDLE_MENU := by
  exact ⟨claim_C6_email_validation.1 "not-an-email" netOK r0 "42" "Bob" (by decide),
    (claim_C6_email_validation.2.1 "user@example.com" netOK r0 "42" "Bob"
      (by decide)).1⟩

/-- C7: whenever the catalog listing comes back empty (which is also what
a remote failure produces), `build_main_menu` returns `None` and `start`
sends the unavailability message and stays in `HANDLE_MENU`; the handler
is a total function — no exception escapes. -/
theorem claim_C7_empty_catalog (net : Net) (r : Remote)
    (h : fetch_products net.productsFail r = []) :
    build_main_menu net.productsFail r = none ∧
    start net r = ⟨HANDLE_MENU, [Out.send "Товары временно недоступны" []],
                   [RCall.fetchProducts], r⟩ := by
  have hb : build_main_menu net.productsFail r = none := by
    simp [build_main_menu, h]
  refine ⟨hb, ?_⟩
  unfold start
  rw [hb]

/-- Witness for C7: the catalog request fails on a concrete remote. -/
theorem claim_C7_empty_catalog_witness :
    build_main_menu netNoCatalog.productsFail r0 = none ∧
    start netNoCatalog r0 =
      ⟨HANDLE_MENU, [Out.send "Товары временно недоступны" []],
       [RCall.fetchProducts], r0⟩ := by
  exact claim_C7_empty_catalog netNoCatalog r0 rfl

/-- C8: on the empty line list the cart view is the "empty cart" content
with only the back button — no checkout action; on any non-empty line
list the view is the grouped content (at least one group) with the grand
total (the sum of the groups' total prices) and the keyboard offers the
checkout action. -/
theorem claim_C8_cart_view (items : List Item) :
    (items = [] →
      buildCartView items =
        (CartView.empty, [[⟨"🔙 Назад к товарам", "back_to_menu"⟩]])) ∧
    (items ≠ [] →
      groupItems items ≠ [] ∧
      (buildCartView items).1 =
        CartView.filled (groupItems items)
          (((groupItems items).map (fun g => g.total_price)).sum) ∧
      [⟨"💳 Оплатить", "checkout"⟩] ∈ (buildCartView items).2) := by
  constructor
  · intro h
    subst h
    rfl
  · intro h
    refine ⟨groupItems_ne_nil items h, ?_, ?_⟩
    · simp [buildCartView, h]
    · simp [buildCartView, h]

/-- Witness for C8 at the empty list and at a concrete two-line cart. -/
theorem claim_C8_cart_view_witness :
    buildCartView [] =
      (CartView.empty, [[⟨"🔙 Назад к товарам", "back_to_menu"⟩]]) ∧
    [⟨"💳 Оплатить", "checkout"⟩] ∈ (buildCartView exTwoProducts).2 := by
  exact ⟨(claim_C8_cart_view []).1 rfl,
    ((claim_C8_cart_view exTwoProducts).2 (by decide)).2.2⟩

/-- C9: `handle_menu` (state MENU) also handles `remove_<id>` and
`checkout` payloads.  With the cart lookup succeeding and the catalog
non-empty: a `remove_<id>` press issues exactly one line-item delete (for
that id) followed by the cart re-render's reads, re-renders the cart view
in place, and stays in `HANDLE_MENU`; a `checkout` press issues exactly
one delete — targeting the CART's `documentId` — sends the
order-confirmation message, re-renders the menu, and ends in
`HANDLE_MENU`. -/
theorem claim_C9_menu_remove_checkout (net : Net) (r : Remote)
    (chatId itemId : String) (cart : Cart)
    (hc : net.cartFail = false)
    (hfind : r.carts.find? (fun c => decide (c.telegram_id = chatId)) = some cart)
    (hp : net.productsFail = false) (hne : r.products ≠ []) :
    ((handle_menu ("remove_" ++ itemId) net r chatId).state = HANDLE_MENU ∧
     (handle_menu ("remove_" ++ itemId) net r chatId).calls =
       [RCall.removeFromCart itemId, RCall.getOrCreateCart chatId,
        RCall.getCartItems cart.documentId] ∧
     (∃ v kb, Out.cartEdit v kb ∈
        (handle_menu ("remove_" ++ itemId) net r chatId).outs)) ∧
    ((handle_menu "checkout" net r chatId).state = HANDLE_MENU ∧
     (handle_menu "checkout" net r chatId).calls =
       [RCall.getOrCreateCart chatId, RCall.removeFromCart cart.documentId,
        RCall.fetchProducts] ∧
     Out.send "✅ Заказ оформлен! Спасибо за покупку!\nСкоро с вами свяжется менеджер." []
       ∈ (handle_menu "checkout" net r chatId).outs ∧
     (∃ kb, Out.send "Выберите товар:" kb ∈
        (handle_menu "checkout" net r chatId).outs)) := by
  constructor
  · have hrrfind : ((remove_from_cart net.removeFail r itemId).2).carts.find?
        (fun c => decide (c.telegram_id = chatId)) = some cart := by
      rw [remove_from_cart_carts]
      exact hfind
    have hrm : handle_menu ("remove_" ++ itemId) net r chatId =
        ⟨HANDLE_MENU,
         (if (remove_from_cart net.removeFail r itemId).1 then
            Out.answer "✅ Товар удален из корзины"
          else Out.answer "❌ Ошибка удаления")
           :: [Out.cartEdit
                (buildCartView (get_cart_items net.itemsFail
                  (remove_from_cart net.removeFail r itemId).2 cart.documentId)).1
                (buildCartView (get_cart_items net.itemsFail
                  (remove_from_cart net.removeFail r itemId).2 cart.documentId)).2],
         [RCall.removeFromCart itemId, RCall.getOrCreateCart chatId,
          RCall.getCartItems cart.documentId],
         (remove_from_cart net.removeFail r itemId).2⟩ := by
      unfold handle_menu
      rw [strStarts_remove_product, strStarts_remove_add, strStarts_remove,
        if_neg (remove_ne_cart itemId), strDrop_remove]
      simp only [Bool.false_eq_true, if_false, if_true]
      unfold show_cart
      rw [hc, get_or_create_cart_found _ _ _ hrrfind]
      rfl
    rw [hrm]
    exact ⟨rfl, rfl, _, _, List.mem_cons_of_mem _ (List.mem_cons_self _ _)⟩
  · have hrp : ((remove_from_cart net.removeFail r cart.documentId).2).products
        = r.products := remove_from_cart_products _ _ _
    have hbm : build_main_menu false
        (remove_from_cart net.removeFail r cart.documentId).2 =
        some ((r.products.map fun p =>
            [⟨⟨p.name.data.take 30⟩, "product_" ++ p.documentId⟩])
          ++ [[⟨"🛒 Корзина", "cart"⟩]]) := by
      rw [build_main_menu_some _ (by rw [hrp]; exact hne), hrp]
    have hck : handle_menu "checkout" net r chatId =
        ⟨HANDLE_MENU,
         [Out.send "✅ Заказ оформлен! Спасибо за покупку!\nСкоро с вами свяжется менеджер." [],
          Out.send "Выберите товар:"
            ((r.products.map fun p =>
                [⟨⟨p.name.data.take 30⟩, "product_" ++ p.documentId⟩])
              ++ [[⟨"🛒 Корзина", "cart"⟩]])],
         [RCall.getOrCreateCart chatId, RCall.removeFromCart cart.documentId,
          RCall.fetchProducts],
         (remove_from_cart net.removeFail r cart.documentId).2⟩ := by
      have d1 : strStarts "checkout" "product_" = false := by decide
      have d2 : strStarts "checkout" "add_" = false := by decide
      have d3 : ("checkout" : String) ≠ "cart" := by decide
      have d4 : strStarts "checkout" "remove_" = false := by decide
      have hgo : get_or_create_cart net.cartFail r chatId = (some cart, r) := by
        rw [hc]
        exact get_or_create_cart_found _ _ _ hfind
      have hstart : start net (remove_from_cart net.removeFail r cart.documentId).2 =
          ⟨HANDLE_MENU,
           [Out.send "Выберите товар:"
              ((r.products.map fun p =>
                  [⟨⟨p.name.data.take 30⟩, "product_" ++ p.documentId⟩])
                ++ [[⟨"🛒 Корзина", "cart"⟩]])],
           [RCall.fetchProducts],
           (remove_from_cart net.removeFail r cart.documentId).2⟩ := by
        unfold start
        rw [hp, hbm]
      unfold handle_menu
      rw [d1, d2, d4, if_neg d3]
      simp only [Bool.false_eq_true, if_false, if_true, hgo, hstart]
    rw [hck]
    refine ⟨rfl, rfl, List.mem_cons_self _ _, ?_⟩
    exact ⟨_, List.mem_cons_of_mem _ (List.mem_cons_self _ _)⟩

/-- Witness for C9 at a concrete remote with a found cart and a non-empty
catalog. -/
theorem claim_C9_menu_remove_checkout_witness :
    (handle_menu ("remove_" ++ "r1") netOK r0 "42").state = HANDLE_MENU ∧
    (handle_menu "checkout" netOK r0 "42").calls =
      [RCall.getOrCreateCart "42", RCall.removeFromCart "c1",
       RCall.fetchProducts] := by
  have h := claim_C9_menu_remove_checkout netOK r0 "42" "r1" cart1
    rfl (by decide) rfl (by decide)
  exact ⟨h.1.1, h.2.2.1⟩

/-- C10: a callback payload matching none of the handled payloads leaves
the state unchanged, emits nothing, and issues no remote call at all (the
remote state is returned untouched): `handle_menu` falls through to
`HANDLE_MENU`, `handle_cart` to `HANDLE_CART`, and `handle_email` (for
any button payload other than `cancel_email`) to `WAITING_EMAIL`. -/
theorem claim_C10_unmatched_payloads (cb p : String) (net : Net) (r : Remote)
    (chatId userName : String)
    (h1 : strStarts cb "product_" = false)
    (h2 : strStarts cb "add_" = false)
    (h3 : cb ≠ "cart")
    (h4 : strStarts cb "remove_" = false)
    (h5 : cb ≠ "checkout")
    (h6 : cb ≠ "back_to_menu")
    (hp : p ≠ "cancel_email") :
    handle_menu cb net r chatId = ⟨HANDLE_MENU, [], [], r⟩ ∧
    handle_cart cb net r chatId = ⟨HANDLE_CART, [], [], r⟩ ∧
    handle_email (Ev.button p) net r chatId userName =
      ⟨WAITING_EMAIL, [], [], r⟩ := by
  refine ⟨?_, ?_, ?_⟩
  · simp [handle_menu, h1, h2, h3, h4, h5, h6]
  · simp [handle_cart, h4, h5, h6]
  · simp [handle_email, hp]

/-- Witness for C10 at the concrete unmatched payloads. -/
theorem claim_C10_unmatched_payloads_witness :
    handle_menu "bogus" netOK r0 "42" = ⟨HANDLE_MENU, [], [], r0⟩ ∧
    handle_cart "bogus" netOK r0 "42" = ⟨HANDLE_CART, [], [], r0⟩ ∧
    handle_email (Ev.button "xyz") netOK r0 "42" "Bob" =
      ⟨WAITING_EMAIL, [], [], r0⟩ := by
  exact claim_C10_unmatched_payloads "bogus" "xyz" netOK r0 "42" "Bob"
    (by decide) (by decide) (by decide) (by decide) (by decide) (by decide)
    (by decide)

end FishStore
